import Mathlib

/-!
Shallow embedding of the Allpowers BLE core
(custom_components/allpowers_ble/allpowers.py) and verification of the
specification claims about it.

Pure protocol logic (frame encoding, notification decoding) is embedded as
Lean functions on `List Nat` (byte values).  Stateful methods of the
`AllpowersBLE` class are embedded as explicit state transformers on a record
mirroring the instance attributes, returning the list of externally visible
transport actions they perform.  Python exceptions are embedded as `Except` /
explicit error results.
-/

/-- State model for Allpowers devices (models.AllpowersState, a mutable
dataclass with these defaults). -/
structure AllpowersState where
  ac_on : Bool := false
  dc_on : Bool := false
  light_on : Bool := false
  percent_remain : Nat := 0
  minutes_remain : Nat := 0
  watts_import : Nat := 0
  watts_export : Nat := 0
deriving DecidableEq

/-- Failure of notification decoding: the handler indexes `data[7]`..`data[14]`,
so a payload shorter than 15 bytes raises before any state update (the spec
names this failure class DecodeError). -/
inductive DecodeError
  | short
deriving DecidableEq

/-- The fixed 9-byte template bytes.fromhex("a56500b10101000071") used by
AllpowersBLE._change_status_to_device. -/
def statusTemplate : List Nat := [0xa5, 0x65, 0x00, 0xb1, 0x01, 0x01, 0x00, 0x00, 0x71]

/-- Byte 7 of the outbound status frame, mirroring the three conditional
bit operations in _change_status_to_device.  Python computes
`s[7] ^ (1 << k)` in the true branch and `s[7] & ~(1 << k)` in the false
branch; on a natural number x, clearing the single bit `1 <<< k` is
`x - (x &&& (1 <<< k))`. -/
def frameByte7 (ac_on dc_on light_on : Bool) : Nat :=
  let s7 : Nat := 0
  let s7 := if light_on then s7 ^^^ (1 <<< 5) else s7 - (s7 &&& (1 <<< 5))
  let s7 := if dc_on then s7 ^^^ (1 <<< 0) else s7 - (s7 &&& (1 <<< 0))
  let s7 := if ac_on then s7 ^^^ (1 <<< 1) else s7 - (s7 &&& (1 <<< 1))
  s7

/-- Byte 8 of the outbound status frame: `s[8] = 113 - s[7]`, then
`s[8] = s[8] + 4` when AC is on. -/
def frameByte8 (ac_on : Bool) (b7 : Nat) : Nat :=
  let s8 := 113 - b7
  if ac_on then s8 + 4 else s8

/-- The full 9-byte status frame built by _change_status_to_device from the
current intended flags: the template with byte 7 and byte 8 replaced. -/
def change_status_frame (ac_on dc_on light_on : Bool) : List Nat :=
  let b7 := frameByte7 ac_on dc_on light_on
  (statusTemplate.set 7 b7).set 8 (frameByte8 ac_on b7)

/-- Decoding of a notification payload, mirroring the field extraction in
AllpowersBLE._notification_handler.  The handler reads `data[7]`..`data[14]`;
on a payload shorter than 15 bytes the read raises before any state is
written, which the embedding renders as a DecodeError. -/
def decode_notification (data : List Nat) : Except DecodeError AllpowersState :=
  if 15 ≤ data.length then
    Except.ok
      { ac_on := (data.getD 7 0 >>> 1) &&& 1 == 1
        dc_on := (data.getD 7 0 >>> 0) &&& 1 == 1
        light_on := (data.getD 7 0 >>> 4) &&& 1 == 1
        percent_remain := data.getD 8 0
        minutes_remain := 256 * data.getD 13 0 + data.getD 14 0
        watts_import := 256 * data.getD 9 0 + data.getD 10 0
        watts_export := 256 * data.getD 11 0 + data.getD 12 0 }
  else Except.error DecodeError.short

/-- Effect of AllpowersBLE._notification_handler on the mutable attributes it
touches: the raw payload is always appended to the internal buffer first; then
on a successful decode the state snapshot is replaced wholesale and the
state-change callbacks are fired, while on a decode failure the handler exits
with the state unchanged and the callbacks not fired.  The returned Bool
records whether the state-change callbacks were fired. -/
def notification_handler (st : AllpowersState) (buf : List Nat) (data : List Nat) :
    AllpowersState × List Nat × Bool :=
  let buf2 := buf ++ data
  match decode_notification data with
  | Except.ok s => (s, buf2, true)
  | Except.error _ => (st, buf2, false)

/-- Sequential processing of a stream of notification payloads: each payload
is handled independently and processing continues with the next one. -/
def process_notifications (st : AllpowersState) (buf : List Nat) :
    List (List Nat) → AllpowersState × List Nat
  | [] => (st, buf)
  | data :: rest =>
    let r := notification_handler st buf data
    process_notifications r.1 r.2.1 rest

/-- C1: for every combination of the three flags, the encoded status frame is
the 9-byte template with byte 7 the bitfield (bit 5 = light, bit 1 = AC,
bit 0 = DC, others cleared) and byte 8 equal to 113 minus byte 7 plus 4 when
AC is on; and the four singled-out frames have exactly the claimed bytes. -/
theorem C1_encode_status_frame :
    (∀ ac dc light : Bool,
      change_status_frame ac dc light =
        [0xa5, 0x65, 0x00, 0xb1, 0x01, 0x01, 0x00,
          (if light then 32 else 0) + (if ac then 2 else 0) + (if dc then 1 else 0),
          113 - ((if light then 32 else 0) + (if ac then 2 else 0) + (if dc then 1 else 0))
            + (if ac then 4 else 0)])
    ∧ change_status_frame false false false = [0xa5, 0x65, 0x00, 0xb1, 0x01, 0x01, 0x00, 0x00, 0x71]
    ∧ (change_status_frame false false true).getD 7 0 = 0x20
    ∧ (change_status_frame false false true).getD 8 0 = 81
    ∧ (change_status_frame true false false).getD 7 0 = 0x02
    ∧ (change_status_frame true false false).getD 8 0 = 115
    ∧ (change_status_frame true true true).getD 7 0 = 0x23
    ∧ (change_status_frame true true true).getD 8 0 = 82 := by
  refine ⟨?_, by decide, by decide, by decide, by decide, by decide, by decide, by decide⟩
  decide

/-- The state built by AllpowersBLE.__init__: AllpowersState() with all
default field values. -/
def initialState : AllpowersState := {}

theorem shiftRight_and_one_beq (d i : Nat) : ((d >>> i) &&& 1 == 1) = d.testBit i := by
  rw [Bool.eq_iff_iff]
  simp [Nat.testBit_to_div_mod, Nat.and_one_is_mod, Nat.shiftRight_eq_div_pow]

/-- C2: decoding a payload of at least 15 bytes extracts byte 7 bit 0 as
dc_on, bit 1 as ac_on, bit 4 as light_on, byte 8 as percent_remain,
bytes 9-10 big-endian as watts_import, bytes 11-12 big-endian as watts_export
and bytes 13-14 big-endian as minutes_remain; on the crafted payload with
byte7=0x03, byte8=50, bytes9-10=(0,120), bytes11-12=(0,80), bytes13-14=(1,44)
the decoded state is exactly the claimed one. -/
theorem C2_decode_notification (data : List Nat) (h : 15 ≤ data.length) :
    decode_notification data =
      Except.ok
        { ac_on := (data.getD 7 0).testBit 1
          dc_on := (data.getD 7 0).testBit 0
          light_on := (data.getD 7 0).testBit 4
          percent_remain := data.getD 8 0
          watts_import := 256 * data.getD 9 0 + data.getD 10 0
          watts_export := 256 * data.getD 11 0 + data.getD 12 0
          minutes_remain := 256 * data.getD 13 0 + data.getD 14 0 }
    ∧ decode_notification [0, 0, 0, 0, 0, 0, 0, 0x03, 50, 0, 120, 0, 80, 1, 44] =
      Except.ok
        { ac_on := true, dc_on := true, light_on := false, percent_remain := 50
          watts_import := 120, watts_export := 80, minutes_remain := 300 } := by
  constructor
  · rw [decode_notification, if_pos h]
    simp only [shiftRight_and_one_beq]
  · rfl

/-- Closed instance of C2_decode_notification at the crafted 15-byte payload. -/
theorem C2_decode_notification_witness :
    decode_notification [0, 0, 0, 0, 0, 0, 0, 0x03, 50, 0, 120, 0, 80, 1, 44] =
      Except.ok
        { ac_on := true, dc_on := true, light_on := false, percent_remain := 50
          watts_import := 120, watts_export := 80, minutes_remain := 300 } :=
  (C2_decode_notification [0, 0, 0, 0, 0, 0, 0, 0x03, 50, 0, 120, 0, 80, 1, 44]
    (by decide)).2

/-- C3: for every payload shorter than 15 bytes, decoding fails with a
DecodeError, the handler leaves the state snapshot unchanged and fires no
state-change callback, and processing continues with the next notification
(only the internal raw buffer has grown). -/
theorem C3_short_payload_dropped (st : AllpowersState) (buf : List Nat)
    (data : List Nat) (h : data.length < 15) (rest : List (List Nat)) :
    decode_notification data = Except.error DecodeError.short
    ∧ (notification_handler st buf data).1 = st
    ∧ (notification_handler st buf data).2.2 = false
    ∧ process_notifications st buf (data :: rest) =
        process_notifications st (buf ++ data) rest := by
  have hdec : decode_notification data = Except.error DecodeError.short := by
    rw [decode_notification, if_neg (by omega)]
  refine ⟨hdec, ?_, ?_, ?_⟩
  · rw [notification_handler, hdec]
  · rw [notification_handler, hdec]
  · rw [process_notifications, notification_handler, hdec]

/-- Closed instance of C3_short_payload_dropped at a concrete 3-byte payload. -/
theorem C3_short_payload_dropped_witness :
    decode_notification [1, 2, 3] = Except.error DecodeError.short
    ∧ (notification_handler initialState [] [1, 2, 3]).1 = initialState
    ∧ (notification_handler initialState [] [1, 2, 3]).2.2 = false
    ∧ process_notifications initialState [] ([1, 2, 3] :: []) =
        process_notifications initialState ([] ++ [1, 2, 3]) [] :=
  C3_short_payload_dropped initialState [] [1, 2, 3] (by decide) []

/-- Behaviour of a registered subscriber when invoked: none means it returns
normally, some e means it raises the error e. -/
inductive CbErr
  | err
deriving DecidableEq

/-- Externally visible transport calls made during a disconnect. -/
inductive TransportAct
  | stopNotify
  | transportDisconnect
deriving DecidableEq

/-- The instance attributes of the AllpowersBLE class that the verified
methods read or write, with the defaults set by __init__.  The client
attribute is none when no handle is stored and some c when a handle is
stored, c recording is_connected.  Disconnect subscribers are represented by
their behaviour when invoked. -/
structure AllpowersBLE where
  state : AllpowersState := {}
  client : Option Bool := none
  expected_disconnect : Bool := false
  buf : List Nat := []
  disconnected_callbacks : List (Option CbErr) := []
deriving DecidableEq

/-- A facade as built by AllpowersBLE.__init__. -/
def initialFacade : AllpowersBLE := {}

/-- Property AllpowersBLE.ac_on: reads the stored state snapshot. -/
def AllpowersBLE.ac_on (f : AllpowersBLE) : Bool := f.state.ac_on

/-- Property AllpowersBLE.dc_on: reads the stored state snapshot. -/
def AllpowersBLE.dc_on (f : AllpowersBLE) : Bool := f.state.dc_on

/-- Property AllpowersBLE.light_on: reads the stored state snapshot. -/
def AllpowersBLE.light_on (f : AllpowersBLE) : Bool := f.state.light_on

/-- AllpowersBLE._change_status_to_device: builds the full status frame from
the stored flags and, only when a client handle is stored, writes it to the
write characteristic.  Returns the facade and the frames written. -/
def AllpowersBLE.change_status_to_device (f : AllpowersBLE) :
    AllpowersBLE × List (List Nat) :=
  let s := change_status_frame f.state.ac_on f.state.dc_on f.state.light_on
  match f.client with
  | some _ => (f, [s])
  | none => (f, [])

/-- AllpowersBLE.set_torch: mutates the stored light flag, then sends the
full status frame. -/
def AllpowersBLE.set_torch (f : AllpowersBLE) (enabled : Bool) :
    AllpowersBLE × List (List Nat) :=
  AllpowersBLE.change_status_to_device { f with state := { f.state with light_on := enabled } }

/-- AllpowersBLE.set_ac: mutates the stored AC flag, then sends the full
status frame. -/
def AllpowersBLE.set_ac (f : AllpowersBLE) (enabled : Bool) :
    AllpowersBLE × List (List Nat) :=
  AllpowersBLE.change_status_to_device { f with state := { f.state with ac_on := enabled } }

/-- AllpowersBLE.set_dc: mutates the stored DC flag, then sends the full
status frame. -/
def AllpowersBLE.set_dc (f : AllpowersBLE) (enabled : Bool) :
    AllpowersBLE × List (List Nat) :=
  AllpowersBLE.change_status_to_device { f with state := { f.state with dc_on := enabled } }

/-- AllpowersBLE._execute_disconnect: under the connect lock, remembers the
stored client, marks the disconnect expected, clears the stored handle, and
only when the remembered client existed and was connected stops notifications
and closes the transport session. -/
def AllpowersBLE.execute_disconnect (f : AllpowersBLE) :
    AllpowersBLE × List TransportAct :=
  let f2 := { f with expected_disconnect := true, client := none }
  match f.client with
  | some c =>
    if c then (f2, [TransportAct.stopNotify, TransportAct.transportDisconnect])
    else (f2, [])
  | none => (f2, [])

/-- C4 counterexample: on a freshly constructed facade, calling set_ac(true)
changes the value returned by the ac_on accessor immediately, with no
notification from the device involved. -/
theorem C4_counterexample :
    AllpowersBLE.ac_on (initialFacade.set_ac true).1 ≠ AllpowersBLE.ac_on initialFacade := by
  decide

/-- C4 amended: each setter immediately mutates the stored flag that the
corresponding public accessor reads, so the accessor returns the requested
value right away (optimistic local update), without waiting for a
device notification to confirm it. -/
theorem C4_setters_optimistic (f : AllpowersBLE) (b : Bool) :
    AllpowersBLE.ac_on (f.set_ac b).1 = b
    ∧ AllpowersBLE.dc_on (f.set_dc b).1 = b
    ∧ AllpowersBLE.light_on (f.set_torch b).1 = b := by
  refine ⟨?_, ?_, ?_⟩ <;>
    simp only [AllpowersBLE.set_ac, AllpowersBLE.set_dc, AllpowersBLE.set_torch,
      AllpowersBLE.change_status_to_device, AllpowersBLE.ac_on, AllpowersBLE.dc_on,
      AllpowersBLE.light_on] <;>
    cases f.client <;> rfl

/-- C10: calling a setter while no client handle is stored completes without
error and performs no transport write, yet still mutates the locally stored
flag used for frame building. -/
theorem C10_setters_no_client (f : AllpowersBLE) (b : Bool) (h : f.client = none) :
    (f.set_ac b).2 = [] ∧ (f.set_ac b).1.state.ac_on = b
    ∧ (f.set_dc b).2 = [] ∧ (f.set_dc b).1.state.dc_on = b
    ∧ (f.set_torch b).2 = [] ∧ (f.set_torch b).1.state.light_on = b := by
  refine ⟨?_, ?_, ?_, ?_, ?_, ?_⟩ <;>
    simp [AllpowersBLE.set_ac, AllpowersBLE.set_dc, AllpowersBLE.set_torch,
      AllpowersBLE.change_status_to_device, h]

/-- Closed instance of C10_setters_no_client on the fresh facade, which has
no stored client handle. -/
theorem C10_setters_no_client_witness :
    (initialFacade.set_ac true).2 = [] ∧ (initialFacade.set_ac true).1.state.ac_on = true
    ∧ (initialFacade.set_dc true).2 = [] ∧ (initialFacade.set_dc true).1.state.dc_on = true
    ∧ (initialFacade.set_torch true).2 = []
    ∧ (initialFacade.set_torch true).1.state.light_on = true :=
  C10_setters_no_client initialFacade true rfl

/-- C9: disconnect is idempotent: with no stored handle it performs no
transport action and leaves no handle stored, and a second disconnect right
after a first one performs no transport action and leaves the facade exactly
as the first one left it. -/
theorem C9_disconnect_idempotent (f : AllpowersBLE) :
    (f.client = none → f.execute_disconnect.2 = [] ∧ f.execute_disconnect.1.client = none)
    ∧ f.execute_disconnect.1.execute_disconnect.1 = f.execute_disconnect.1
    ∧ f.execute_disconnect.1.execute_disconnect.2 = [] := by
  refine ⟨fun h => ?_, ?_, ?_⟩
  · simp [AllpowersBLE.execute_disconnect, h]
  · rcases f with ⟨st, client, exp, buf, cbs⟩
    rcases client with _ | c
    · rfl
    · rcases c with _ | _ <;> rfl
  · rcases f with ⟨st, client, exp, buf, cbs⟩
    rcases client with _ | c
    · rfl
    · rcases c with _ | _ <;> rfl

/-- Closed instance of C9_disconnect_idempotent on the fresh facade. -/
theorem C9_disconnect_idempotent_witness :
    (initialFacade.execute_disconnect.2 = []
      ∧ initialFacade.execute_disconnect.1.client = none)
    ∧ initialFacade.execute_disconnect.1.execute_disconnect.1 =
        initialFacade.execute_disconnect.1
    ∧ initialFacade.execute_disconnect.1.execute_disconnect.2 = [] :=
  ⟨(C9_disconnect_idempotent initialFacade).1 rfl,
    (C9_disconnect_idempotent initialFacade).2⟩

/-- Loop body of the callback fan-out, iterating from position i: each
subscriber is invoked in turn; a subscriber that raises propagates its error
out of the loop, so the subscribers after it are not invoked.  Returns the
positions of the invoked subscribers and the propagated error, if any. -/
def fireFrom (i : Nat) : List (Option CbErr) → List Nat × Option CbErr
  | [] => ([], none)
  | none :: rest =>
    let r := fireFrom (i + 1) rest
    (i :: r.1, r.2)
  | some e :: _ => ([i], some e)

/-- AllpowersBLE._fire_callbacks and ._fire_disconnected_callbacks: iterate
over the registered subscriber list in order. -/
def fire_callbacks (cbs : List (Option CbErr)) : List Nat × Option CbErr :=
  fireFrom 0 cbs

/-- AllpowersBLE.register_callback / register_disconnected_callback append
the new subscriber at the end of the list, so position equals registration
order. -/
def register_callback (cbs : List (Option CbErr)) (cb : Option CbErr) :
    List (Option CbErr) :=
  cbs ++ [cb]

/-- Outcome of the transport disconnect callback AllpowersBLE._disconnected:
which subscribers were invoked, the subscriber error that escaped (if any),
and whether a reconnect task was scheduled. -/
structure DisconnectedResult where
  invoked : List Nat
  raised : Option CbErr
  reconnect_scheduled : Bool
deriving DecidableEq

/-- AllpowersBLE._disconnected: fires the disconnect subscribers first
(unconditionally), then checks the expected-disconnect flag: when expected it
returns without scheduling anything; otherwise it schedules a reconnect task.
A subscriber error escapes the handler before the flag is checked, so no
reconnect is scheduled in that case either. -/
def AllpowersBLE.disconnected (f : AllpowersBLE) : DisconnectedResult :=
  let r := fire_callbacks f.disconnected_callbacks
  match r.2 with
  | some e => { invoked := r.1, raised := some e, reconnect_scheduled := false }
  | none =>
    if f.expected_disconnect then
      { invoked := r.1, raised := none, reconnect_scheduled := false }
    else
      { invoked := r.1, raised := none, reconnect_scheduled := true }

theorem fireFrom_all_none (cbs : List (Option CbErr)) (h : ∀ c ∈ cbs, c = none) :
    ∀ i, fireFrom i cbs = (List.range' i cbs.length, none) := by
  induction cbs with
  | nil => intro i; rfl
  | cons c rest ih =>
    intro i
    have hc : c = none := h c (List.mem_cons_self c rest)
    subst hc
    have hrest : ∀ x ∈ rest, x = none := fun x hx => h x (List.mem_cons_of_mem _ hx)
    rw [List.length_cons, List.range'_succ, fireFrom, ih hrest (i + 1)]

theorem fireFrom_first_err (k : Nat) (e : CbErr) :
    ∀ (cbs : List (Option CbErr)) (i : Nat), cbs.getD k none = some e →
      (∀ j ∈ List.range k, cbs.getD j none = none) →
      fireFrom i cbs = (List.range' i (k + 1), some e) := by
  induction k with
  | zero =>
    intro cbs i hk _
    match cbs, hk with
    | some e :: rest, rfl => rfl
  | succ k ih =>
    intro cbs i hk hprev
    match cbs with
    | [] => simp at hk
    | c :: rest =>
      have hc : c = none := by
        have := hprev 0 (List.mem_range.mpr (Nat.succ_pos k))
        simpa using this
      subst hc
      have hrest : rest.getD k none = some e := hk
      have hprev2 : ∀ j ∈ List.range k, rest.getD j none = none := by
        intro j hj
        have := hprev (j + 1) (List.mem_range.mpr (Nat.succ_lt_succ (List.mem_range.mp hj)))
        simpa using this
      rw [fireFrom, ih rest (i + 1) hrest hprev2]
      simp [List.range'_succ]

/-- C6 counterexample: with two registered subscribers of which the first
raises, only position 0 is invoked; the raised error prevents the remaining
subscriber (position 1) from running, contrary to the claim. -/
theorem C6_counterexample :
    (fire_callbacks [some CbErr.err, none]).1 = [0]
    ∧ 1 ∉ (fire_callbacks [some CbErr.err, none]).1 := by
  decide

/-- C6 amended: fan-out invokes subscribers synchronously in registration
order; when every subscriber returns normally all of them are invoked, in
order, and no error escapes; but when the subscriber at position k is the
first to raise, exactly the subscribers at positions 0..k are invoked, the
error escapes the fan-out, and the remaining subscribers are not invoked. -/
theorem C6_fanout_order (cbs : List (Option CbErr)) :
    ((∀ c ∈ cbs, c = none) → fire_callbacks cbs = (List.range cbs.length, none))
    ∧ (∀ k e, cbs.getD k none = some e →
        (∀ j ∈ List.range k, cbs.getD j none = none) →
        fire_callbacks cbs = (List.range (k + 1), some e)) := by
  constructor
  · intro h
    rw [fire_callbacks, fireFrom_all_none cbs h 0, List.range_eq_range']
  · intro k e hk hprev
    rw [fire_callbacks, fireFrom_first_err k e cbs 0 hk hprev, List.range_eq_range']

/-- Closed instance of C6_fanout_order: with subscribers [ok, raising, ok],
exactly positions 0 and 1 are invoked and the error escapes; and with two
well-behaved subscribers both are invoked in order. -/
theorem C6_fanout_order_witness :
    fire_callbacks [none, some CbErr.err, none] = (List.range 2, some CbErr.err)
    ∧ fire_callbacks [none, none] = (List.range 2, none) :=
  ⟨(C6_fanout_order [none, some CbErr.err, none]).2 1 CbErr.err (by decide) (by decide),
    (C6_fanout_order [none, none]).1 (by decide)⟩

theorem fireFrom_ne_nil (i : Nat) (cbs : List (Option CbErr)) (h : cbs ≠ []) :
    (fireFrom i cbs).1 ≠ [] := by
  match cbs with
  | [] => exact absurd rfl h
  | none :: rest => simp [fireFrom]
  | some e :: rest => simp [fireFrom]

/-- A facade that has been told to disconnect deliberately (expected flag
set) and has one well-behaved disconnect subscriber registered. -/
def expectedFacade : AllpowersBLE :=
  { expected_disconnect := true, disconnected_callbacks := [none] }

/-- C5 counterexample: on a facade whose disconnect was explicitly requested
(expected-disconnect flag set) with one registered disconnect subscriber, the
transport disconnect callback still invokes that subscriber, contrary to the
claim that no disconnect subscriber is invoked for expected disconnects. -/
theorem C5_counterexample :
    (AllpowersBLE.disconnected expectedFacade).invoked ≠ [] := by
  decide

/-- C5 amended: when the disconnect was explicitly requested no reconnect
task is scheduled, but the disconnect subscribers are still invoked — the
handler fires them unconditionally before checking the expected-disconnect
flag; when no subscriber raises, a reconnect task is scheduled exactly for
unexpected disconnects. -/
theorem C5_expected_disconnect (f : AllpowersBLE) :
    (f.expected_disconnect = true → f.disconnected.reconnect_scheduled = false)
    ∧ (f.disconnected_callbacks ≠ [] → f.disconnected.invoked ≠ [])
    ∧ ((fire_callbacks f.disconnected_callbacks).2 = none →
        f.disconnected.reconnect_scheduled = !f.expected_disconnect) := by
  rcases hr : fire_callbacks f.disconnected_callbacks with ⟨inv, err⟩
  have hinv : f.disconnected.invoked = inv := by
    unfold AllpowersBLE.disconnected
    rw [hr]
    cases err
    · cases hexp : f.expected_disconnect <;> rfl
    · rfl
  refine ⟨?_, ?_, ?_⟩
  · intro h
    unfold AllpowersBLE.disconnected
    rw [hr]
    cases err
    · simp [h]
    · rfl
  · intro hne
    rw [hinv]
    have h2 := fireFrom_ne_nil 0 f.disconnected_callbacks hne
    have hr2 : fireFrom 0 f.disconnected_callbacks = (inv, err) := hr
    rw [hr2] at h2
    exact h2
  · intro herr
    have herr2 : err = none := herr
    subst herr2
    unfold AllpowersBLE.disconnected
    rw [hr]
    cases hexp : f.expected_disconnect <;> simp
/-- Closed instance of C5_expected_disconnect on the deliberately
disconnected facade with one subscriber. -/
theorem C5_expected_disconnect_witness :
    (AllpowersBLE.disconnected expectedFacade).reconnect_scheduled = false
    ∧ (AllpowersBLE.disconnected expectedFacade).invoked ≠ []
    ∧ (AllpowersBLE.disconnected expectedFacade).reconnect_scheduled =
        !expectedFacade.expected_disconnect :=
  ⟨(C5_expected_disconnect expectedFacade).1 rfl,
    (C5_expected_disconnect expectedFacade).2.1 (by decide),
    (C5_expected_disconnect expectedFacade).2.2 rfl⟩

/-- Transport-level errors distinguished by the send path: dbus is
BleakDBusError (the backoff-class stack-busy error), notFound is
BleakNotFoundError, generic is any other BleakError. -/
inductive BleakErr
  | dbus
  | notFound
  | generic
deriving DecidableEq

/-- Externally visible steps taken while sending: the successful write of the
frames, the asyncio.sleep(BLEAK_BACKOFF_TIME) backoff, and a forced
disconnect via _execute_disconnect. -/
inductive SendAct
  | writeFrames
  | sleepBackoff
  | forceDisconnect
deriving DecidableEq

/-- BLEAK_BACKOFF_TIME = 0.25 seconds, expressed in milliseconds. -/
def BLEAK_BACKOFF_TIME_MS : Nat := 250

/-- DEFAULT_ATTEMPTS = sys.maxsize (on a 64-bit CPython build). -/
def DEFAULT_ATTEMPTS : Nat := 2 ^ 63 - 1

/-- Body of AllpowersBLE._send_command_locked for a single underlying
attempt whose outcome is given: on success the frames are written; on
BleakDBusError it sleeps the backoff time, force-disconnects and re-raises;
on any other BleakError (the BleakNotFoundError subclass included) it
force-disconnects and re-raises. -/
def send_command_locked_body (outcome : Option BleakErr) :
    List SendAct × Option BleakErr :=
  match outcome with
  | none => ([SendAct.writeFrames], none)
  | some BleakErr.dbus =>
    ([SendAct.sleepBackoff, SendAct.forceDisconnect], some BleakErr.dbus)
  | some BleakErr.notFound => ([SendAct.forceDisconnect], some BleakErr.notFound)
  | some BleakErr.generic => ([SendAct.forceDisconnect], some BleakErr.generic)

/-- Modelled from the spec: the retry_bluetooth_connection_error decorator of
bleak_retry_connector (an external library, not part of this repository)
wraps _send_command_locked in a retry loop with the given attempt budget;
per the spec, backoff-class and generic transport errors are retried while a
device-not-found error is surfaced immediately, not retried at this layer.
The outcomes list supplies the result of each successive underlying attempt;
the returned pair collects every action performed and the error that finally
escaped, if any. -/
def send_command_locked (attempts : Nat) (outcomes : List (Option BleakErr)) :
    List SendAct × Option BleakErr :=
  match attempts with
  | 0 => ([], none)
  | n + 1 =>
    let r := send_command_locked_body (outcomes.headD none)
    match r.2 with
    | none => (r.1, none)
    | some BleakErr.notFound => (r.1, some BleakErr.notFound)
    | some e =>
      if n = 0 then (r.1, some e)
      else
        let r2 := send_command_locked n outcomes.tail
        (r.1 ++ r2.1, r2.2)

/-- AllpowersBLE._send_command_while_connected: runs the retried locked send
under the operation lock; its except clauses only log and re-raise, so the
actions and the escaping error are those of the retried locked send. -/
def send_command_while_connected (attempts : Nat)
    (outcomes : List (Option BleakErr)) : List SendAct × Option BleakErr :=
  send_command_locked attempts outcomes

theorem send_retryable_prefix (k : Nat) :
    ∀ (a : Nat) (rest : List (Option BleakErr)), k < a →
      (send_command_locked a
        (List.replicate k (some BleakErr.generic) ++ none :: rest)).2 = none := by
  induction k with
  | zero =>
    intro a rest h
    obtain ⟨m, rfl⟩ : ∃ m, a = m + 1 := ⟨a - 1, by omega⟩
    simp [send_command_locked, send_command_locked_body]
  | succ k ih =>
    intro a rest h
    obtain ⟨m, rfl⟩ : ∃ m, a = m + 1 := ⟨a - 1, by omega⟩
    have hm : k < m := by omega
    have hm0 : m ≠ 0 := by omega
    simp [send_command_locked, send_command_locked_body, hm0, List.replicate_succ,
      ih m rest hm]

/-- C7: during a send, a BleakDBusError outcome makes the attempt sleep the
250 ms backoff, force-disconnect, and hand control to a retry of the send;
any other generic transport error makes it force-disconnect and retry; a
device-not-found outcome is surfaced at once with no retry; and the default
attempt budget of 2^63 - 1 lets any number of retryable failures below it be
retried through to an eventual success. -/
theorem C7_send_retry (rest : List (Option BleakErr)) (n : Nat) (hn : 1 ≤ n) :
    (send_command_while_connected (n + 1) (some BleakErr.dbus :: rest) =
      (SendAct.sleepBackoff :: SendAct.forceDisconnect ::
          (send_command_locked n rest).1,
        (send_command_locked n rest).2))
    ∧ (send_command_while_connected (n + 1) (some BleakErr.generic :: rest) =
      (SendAct.forceDisconnect :: (send_command_locked n rest).1,
        (send_command_locked n rest).2))
    ∧ (send_command_while_connected n (some BleakErr.notFound :: rest) =
        ([SendAct.forceDisconnect], some BleakErr.notFound))
    ∧ BLEAK_BACKOFF_TIME_MS = 250
    ∧ (∀ k, k < DEFAULT_ATTEMPTS →
        (send_command_while_connected DEFAULT_ATTEMPTS
          (List.replicate k (some BleakErr.generic) ++ none :: rest)).2 = none) := by
  have hn0 : n ≠ 0 := by omega
  refine ⟨?_, ?_, ?_, rfl, ?_⟩
  · simp [send_command_while_connected, send_command_locked, send_command_locked_body, hn0]
  · simp [send_command_while_connected, send_command_locked, send_command_locked_body, hn0]
  · obtain ⟨m, rfl⟩ : ∃ m, n = m + 1 := ⟨n - 1, by omega⟩
    simp [send_command_while_connected, send_command_locked, send_command_locked_body]
  · intro k hk
    exact send_retryable_prefix k DEFAULT_ATTEMPTS rest hk

/-- Closed instance of C7_send_retry with one remaining outcome: a dbus
failure then success, a generic failure then success, an immediate not-found,
and a run of three generic failures before success under the default budget. -/
theorem C7_send_retry_witness :
    (send_command_while_connected 2 [some BleakErr.dbus, none] =
      (SendAct.sleepBackoff :: SendAct.forceDisconnect ::
          (send_command_locked 1 [none]).1, (send_command_locked 1 [none]).2))
    ∧ (send_command_while_connected 2 [some BleakErr.generic, none] =
      (SendAct.forceDisconnect :: (send_command_locked 1 [none]).1,
        (send_command_locked 1 [none]).2))
    ∧ (send_command_while_connected 1 [some BleakErr.notFound, none] =
        ([SendAct.forceDisconnect], some BleakErr.notFound))
    ∧ (send_command_while_connected DEFAULT_ATTEMPTS
        (List.replicate 3 (some BleakErr.generic) ++ none :: [none])).2 = none :=
  ⟨(C7_send_retry [none] 1 (by decide)).1,
    (C7_send_retry [none] 1 (by decide)).2.1,
    (C7_send_retry [none] 1 (by decide)).2.2.1,
    (C7_send_retry [none] 1 (by decide)).2.2.2.2 3 (by decide)⟩

/-- Program counter of one task running AllpowersBLE._ensure_connected.
start: about to run the fast-path liveness check; waitLock: fast path missed,
waiting on the connect lock; locked: holding the lock, about to re-check
liveness; connecting: establish_connection in flight with the lock held;
done: returned. -/
inductive ConnPC
  | start
  | waitLock
  | locked
  | connecting
  | done
deriving DecidableEq

/-- Shared state of n tasks concurrently executing _ensure_connected on one
facade: the connect lock, whether a live client handle is stored, how many
underlying connect attempts were started, and the position of each task. -/
structure ConnSt (n : Nat) where
  lock : Bool
  client : Bool
  attempts : Nat
  pcs : Fin n → ConnPC

/-- Interleaving semantics of _ensure_connected under the cooperative
scheduler: each step is the code one task runs between two suspension
points.  The fast-path check returns when a live handle exists; acquiring
the lock requires it free; under the lock liveness is re-checked; only when
still absent is an underlying connect attempt started, which on completion
stores the handle and releases the lock. -/
inductive ConnStep {n : Nat} : ConnSt n → ConnSt n → Prop
  | fastPathHit (s : ConnSt n) (i : Fin n) :
      s.pcs i = ConnPC.start → s.client = true →
      ConnStep s { s with pcs := Function.update s.pcs i ConnPC.done }
  | fastPathMiss (s : ConnSt n) (i : Fin n) :
      s.pcs i = ConnPC.start → s.client = false →
      ConnStep s { s with pcs := Function.update s.pcs i ConnPC.waitLock }
  | acquire (s : ConnSt n) (i : Fin n) :
      s.pcs i = ConnPC.waitLock → s.lock = false →
      ConnStep s { s with lock := true, pcs := Function.update s.pcs i ConnPC.locked }
  | recheckHit (s : ConnSt n) (i : Fin n) :
      s.pcs i = ConnPC.locked → s.client = true →
      ConnStep s { s with lock := false, pcs := Function.update s.pcs i ConnPC.done }
  | recheckMiss (s : ConnSt n) (i : Fin n) :
      s.pcs i = ConnPC.locked → s.client = false →
      ConnStep s
        { s with
          attempts := s.attempts + 1
          pcs := Function.update s.pcs i ConnPC.connecting }
  | connected (s : ConnSt n) (i : Fin n) :
      s.pcs i = ConnPC.connecting →
      ConnStep s
        { s with
          client := true
          lock := false
          pcs := Function.update s.pcs i ConnPC.done }

/-- The initial shared state: no connection, lock free, no attempt started,
every task about to call _ensure_connected. -/
def connInit (n : Nat) : ConnSt n :=
  { lock := false, client := false, attempts := 0, pcs := fun _ => ConnPC.start }

/-- A task holds the connect lock when it is between acquiring it and the
end of its critical section. -/
def isHolder (pc : ConnPC) : Prop := pc = ConnPC.locked ∨ pc = ConnPC.connecting

/-- Inductive invariant of the ensure_connected interleaving: the lock is
held by at most one task, the lock being free means nobody is in the
critical section, a connect attempt only runs while no handle is stored, any
finished task has seen a stored handle, and the attempt counter is 0 before
a handle exists or an attempt starts, and 1 from then on. -/
structure ConnInv {n : Nat} (s : ConnSt n) : Prop where
  atMostOne : ∀ i j, isHolder (s.pcs i) → isHolder (s.pcs j) → i = j
  lockFree : s.lock = false → ∀ i, ¬ isHolder (s.pcs i)
  connectingNoClient : ∀ i, s.pcs i = ConnPC.connecting → s.client = false
  doneClient : ∀ i, s.pcs i = ConnPC.done → s.client = true
  attemptsZero : s.client = false → (∀ i, s.pcs i ≠ ConnPC.connecting) →
    s.attempts = 0
  attemptsOneClient : s.client = true → s.attempts = 1
  attemptsOneConn : ∀ i, s.pcs i = ConnPC.connecting → s.attempts = 1

theorem connInv_init (n : Nat) : ConnInv (connInit n) := by
  refine ⟨?_, ?_, ?_, ?_, ?_, ?_, ?_⟩
  · intro i j hi _
    rcases hi with h | h <;> exact absurd h (by simp [connInit])
  · intro _ i hi
    rcases hi with h | h <;> exact absurd h (by simp [connInit])
  · intro i hi
    exact absurd hi (by simp [connInit])
  · intro i hi
    exact absurd hi (by simp [connInit])
  · intro _ _
    rfl
  · intro hc
    exact absurd hc (by simp [connInit])
  · intro i hi
    exact absurd hi (by simp [connInit])

theorem isHolder_update {n : Nat} (pcs : Fin n → ConnPC) (i : Fin n) (v : ConnPC)
    (j : Fin n) :
    isHolder (Function.update pcs i v j) ↔
      (j = i ∧ isHolder v) ∨ (j ≠ i ∧ isHolder (pcs j)) := by
  rw [Function.update_apply]
  by_cases hj : j = i <;> simp [hj]

theorem update_pc_eq_iff {n : Nat} (pcs : Fin n → ConnPC) (i : Fin n) (v : ConnPC)
    (j : Fin n) (w : ConnPC) :
    Function.update pcs i v j = w ↔ (j = i ∧ v = w) ∨ (j ≠ i ∧ pcs j = w) := by
  rw [Function.update_apply]
  by_cases hj : j = i <;> simp [hj]

theorem atMostOne_update_nonholder {n : Nat} {pcs : Fin n → ConnPC}
    (h : ∀ a b, isHolder (pcs a) → isHolder (pcs b) → a = b) (i : Fin n)
    (v : ConnPC) (hv : ¬ isHolder v) :
    ∀ a b, isHolder (Function.update pcs i v a) →
      isHolder (Function.update pcs i v b) → a = b := by
  intro a b ha hb
  rw [isHolder_update] at ha hb
  rcases ha with ⟨_, hva⟩ | ⟨_, ha⟩
  · exact absurd hva hv
  · rcases hb with ⟨_, hvb⟩ | ⟨_, hb⟩
    · exact absurd hvb hv
    · exact h a b ha hb

theorem connInv_step {n : Nat} {s t : ConnSt n} (h : ConnInv s)
    (hst : ConnStep s t) : ConnInv t := by
  cases hst with
  | fastPathHit i hpc hc =>
    refine ⟨atMostOne_update_nonholder h.atMostOne i _ (by simp [isHolder]),
      ?_, ?_, ?_, ?_, ?_, ?_⟩
    · intro hl j hj
      rw [isHolder_update] at hj
      rcases hj with ⟨_, hv⟩ | ⟨_, hold⟩
      · exact absurd hv (by simp [isHolder])
      · exact h.lockFree hl j hold
    · intro j hj
      rw [update_pc_eq_iff] at hj
      rcases hj with ⟨_, hv⟩ | ⟨_, hold⟩
      · exact absurd hv (by decide)
      · exact h.connectingNoClient j hold
    · intro j _
      exact hc
    · intro hcf _
      exact absurd (hc.symm.trans hcf) (by decide)
    · intro _
      exact h.attemptsOneClient hc
    · intro j hj
      rw [update_pc_eq_iff] at hj
      rcases hj with ⟨_, hv⟩ | ⟨_, hold⟩
      · exact absurd hv (by decide)
      · exact h.attemptsOneConn j hold
  | fastPathMiss i hpc hc =>
    refine ⟨atMostOne_update_nonholder h.atMostOne i _ (by simp [isHolder]),
      ?_, ?_, ?_, ?_, ?_, ?_⟩
    · intro hl j hj
      rw [isHolder_update] at hj
      rcases hj with ⟨_, hv⟩ | ⟨_, hold⟩
      · exact absurd hv (by simp [isHolder])
      · exact h.lockFree hl j hold
    · intro j hj
      rw [update_pc_eq_iff] at hj
      rcases hj with ⟨_, hv⟩ | ⟨_, hold⟩
      · exact absurd hv (by decide)
      · exact h.connectingNoClient j hold
    · intro j hj
      rw [update_pc_eq_iff] at hj
      rcases hj with ⟨_, hv⟩ | ⟨_, hold⟩
      · exact absurd hv (by decide)
      · exact h.doneClient j hold
    · intro hcf hnc
      apply h.attemptsZero hcf
      intro j hj
      by_cases hji : j = i
      · rw [hji, hpc] at hj
        exact absurd hj (by decide)
      · have h3 : Function.update s.pcs i ConnPC.waitLock j ≠ ConnPC.connecting := hnc j
        rw [Function.update_apply, if_neg hji] at h3
        exact h3 hj
    · intro hct
      exact h.attemptsOneClient hct
    · intro j hj
      rw [update_pc_eq_iff] at hj
      rcases hj with ⟨_, hv⟩ | ⟨_, hold⟩
      · exact absurd hv (by decide)
      · exact h.attemptsOneConn j hold
  | acquire i hpc hl =>
    refine ⟨?_, ?_, ?_, ?_, ?_, ?_, ?_⟩
    · intro a b ha hb
      rw [isHolder_update] at ha hb
      rcases ha with ⟨hai, _⟩ | ⟨_, holda⟩
      · rcases hb with ⟨hbi, _⟩ | ⟨_, holdb⟩
        · rw [hai, hbi]
        · exact absurd holdb (h.lockFree hl b)
      · exact absurd holda (h.lockFree hl a)
    · intro hl2
      simp at hl2
    · intro j hj
      rw [update_pc_eq_iff] at hj
      rcases hj with ⟨_, hv⟩ | ⟨_, hold⟩
      · exact absurd hv (by decide)
      · exact h.connectingNoClient j hold
    · intro j hj
      rw [update_pc_eq_iff] at hj
      rcases hj with ⟨_, hv⟩ | ⟨_, hold⟩
      · exact absurd hv (by decide)
      · exact h.doneClient j hold
    · intro hcf hnc
      apply h.attemptsZero hcf
      intro j hj
      by_cases hji : j = i
      · rw [hji, hpc] at hj
        exact absurd hj (by decide)
      · have h3 : Function.update s.pcs i ConnPC.locked j ≠ ConnPC.connecting := hnc j
        rw [Function.update_apply, if_neg hji] at h3
        exact h3 hj
    · intro hct
      exact h.attemptsOneClient hct
    · intro j hj
      rw [update_pc_eq_iff] at hj
      rcases hj with ⟨_, hv⟩ | ⟨_, hold⟩
      · exact absurd hv (by decide)
      · exact h.attemptsOneConn j hold
  | recheckHit i hpc hc =>
    refine ⟨atMostOne_update_nonholder h.atMostOne i _ (by simp [isHolder]),
      ?_, ?_, ?_, ?_, ?_, ?_⟩
    · intro _ j hj
      rw [isHolder_update] at hj
      rcases hj with ⟨_, hv⟩ | ⟨hne, hold⟩
      · exact absurd hv (by simp [isHolder])
      · exact absurd (h.atMostOne j i hold (Or.inl hpc)) hne
    · intro j hj
      rw [update_pc_eq_iff] at hj
      rcases hj with ⟨_, hv⟩ | ⟨hne, hold⟩
      · exact absurd hv (by decide)
      · exact absurd (h.atMostOne j i (Or.inr hold) (Or.inl hpc)) hne
    · intro j _
      exact hc
    · intro hcf _
      exact absurd (hc.symm.trans hcf) (by decide)
    · intro _
      exact h.attemptsOneClient hc
    · intro j hj
      rw [update_pc_eq_iff] at hj
      rcases hj with ⟨_, hv⟩ | ⟨hne, hold⟩
      · exact absurd hv (by decide)
      · exact absurd (h.atMostOne j i (Or.inr hold) (Or.inl hpc)) hne
  | recheckMiss i hpc hc =>
    have hlock : s.lock = true := by
      cases hl : s.lock
      · exact absurd (Or.inl hpc) (h.lockFree hl i)
      · rfl
    have hnoconn : ∀ j, s.pcs j ≠ ConnPC.connecting := by
      intro j hj
      have hji := h.atMostOne j i (Or.inr hj) (Or.inl hpc)
      rw [hji, hpc] at hj
      exact absurd hj (by decide)
    have hzero : s.attempts = 0 := h.attemptsZero hc hnoconn
    refine ⟨?_, ?_, ?_, ?_, ?_, ?_, ?_⟩
    · intro a b ha hb
      rw [isHolder_update] at ha hb
      rcases ha with ⟨hai, _⟩ | ⟨hane, holda⟩
      · rcases hb with ⟨hbi, _⟩ | ⟨hbne, holdb⟩
        · rw [hai, hbi]
        · exact absurd (h.atMostOne b i holdb (Or.inl hpc)) hbne
      · exact absurd (h.atMostOne a i holda (Or.inl hpc)) hane
    · intro hl2
      exact absurd (hlock.symm.trans hl2) (by decide)
    · intro j _
      exact hc
    · intro j hj
      rw [update_pc_eq_iff] at hj
      rcases hj with ⟨_, hv⟩ | ⟨_, hold⟩
      · exact absurd hv (by decide)
      · exact h.doneClient j hold
    · intro _ hnc
      have h3 : Function.update s.pcs i ConnPC.connecting i ≠ ConnPC.connecting := hnc i
      rw [Function.update_same] at h3
      exact absurd rfl h3
    · intro hct
      exact absurd (hc.symm.trans hct) (by decide)
    · intro j _
      rw [hzero]
  | connected i hpc =>
    have hone : s.attempts = 1 := h.attemptsOneConn i hpc
    refine ⟨atMostOne_update_nonholder h.atMostOne i _ (by simp [isHolder]),
      ?_, ?_, ?_, ?_, ?_, ?_⟩
    · intro _ j hj
      rw [isHolder_update] at hj
      rcases hj with ⟨_, hv⟩ | ⟨hne, hold⟩
      · exact absurd hv (by simp [isHolder])
      · exact absurd (h.atMostOne j i hold (Or.inr hpc)) hne
    · intro j hj
      rw [update_pc_eq_iff] at hj
      rcases hj with ⟨_, hv⟩ | ⟨hne, hold⟩
      · exact absurd hv (by decide)
      · exact absurd (h.atMostOne j i (Or.inr hold) (Or.inr hpc)) hne
    · intro j _
      rfl
    · intro hcf _
      simp at hcf
    · intro _
      exact hone
    · intro j hj
      rw [update_pc_eq_iff] at hj
      rcases hj with ⟨_, hv⟩ | ⟨hne, hold⟩
      · exact absurd hv (by decide)
      · exact absurd (h.atMostOne j i (Or.inr hold) (Or.inr hpc)) hne

theorem connInv_reachable {n : Nat} {s : ConnSt n}
    (h : Relation.ReflTransGen ConnStep (connInit n) s) : ConnInv s := by
  induction h with
  | refl => exact connInv_init n
  | tail _ hstep ih => exact connInv_step ih hstep

/-- C8: starting from no live connection, any interleaving of n concurrent
ensure_connected calls that runs every task to completion performs exactly
one underlying connect attempt: the fast path and the re-check under the
connect lock make every racing caller find the handle already established. -/
theorem C8_single_connect_attempt (n : Nat) (s : ConnSt n)
    (hreach : Relation.ReflTransGen ConnStep (connInit n) s)
    (hdone : ∀ i, s.pcs i = ConnPC.done) (hn : 0 < n) :
    s.attempts = 1 := by
  have hinv : ConnInv s := connInv_reachable hreach
  exact hinv.attemptsOneClient (hinv.doneClient ⟨0, hn⟩ (hdone ⟨0, hn⟩))

/-- The four intermediate states of one task running ensure_connected to
completion from the initial state: after the fast-path miss, after acquiring
the lock, after starting the connect attempt, and after completing it. -/
def connW1 : ConnSt 1 :=
  { connInit 1 with pcs := Function.update (connInit 1).pcs 0 ConnPC.waitLock }

/-- The state after the single task acquires the connect lock. -/
def connW2 : ConnSt 1 :=
  { connW1 with lock := true, pcs := Function.update connW1.pcs 0 ConnPC.locked }

/-- The state after the re-check misses and the connect attempt starts. -/
def connW3 : ConnSt 1 :=
  { connW2 with
    attempts := connW2.attempts + 1
    pcs := Function.update connW2.pcs 0 ConnPC.connecting }

/-- The state after the connect attempt completes and the task returns. -/
def connW4 : ConnSt 1 :=
  { connW3 with
    client := true
    lock := false
    pcs := Function.update connW3.pcs 0 ConnPC.done }

/-- Closed instance of C8_single_connect_attempt: a single task driven
through fast-path miss, lock acquire, re-check miss, connect completion ends
with exactly one attempt recorded. -/
theorem C8_single_connect_attempt_witness : connW4.attempts = 1 := by
  have h01 : ConnStep (connInit 1) connW1 :=
    ConnStep.fastPathMiss (connInit 1) 0 rfl rfl
  have h12 : ConnStep connW1 connW2 :=
    ConnStep.acquire connW1 0 (by decide) rfl
  have h23 : ConnStep connW2 connW3 :=
    ConnStep.recheckMiss connW2 0 (by decide) rfl
  have h34 : ConnStep connW3 connW4 :=
    ConnStep.connected connW3 0 (by decide)
  have hreach : Relation.ReflTransGen ConnStep (connInit 1) connW4 :=
    Relation.ReflTransGen.tail
      (Relation.ReflTransGen.tail
        (Relation.ReflTransGen.tail
          (Relation.ReflTransGen.tail Relation.ReflTransGen.refl h01) h12) h23) h34
  exact C8_single_connect_attempt 1 connW4 hreach (by decide) (by decide)
